import Mathlib

/-!
Verification development for the `just_now` backend (src/backend/main.py,
src/backend/schemas.py): a shallow embedding of the intent-resolution and
geospatial-disambiguation pipeline, and theorems settling the spec's claims.

Modelling conventions:
* Python floats are modelled as `ℚ` in the computable pipeline (coordinates,
  distances, importance scores, zoom levels), and as `ℝ` for the one
  transcendental function (`haversine_distance`, which uses sin/cos/atan2/sqrt).
* Python `Optional[float]` / `Optional[str]` become `Option ℚ` / `Option String`;
  Python truthiness tests (`if user_lat:`) are embedded explicitly
  (`none` and `some 0` are falsy for floats, `none` and `some ""` for strings).
* `uuid.uuid4()` calls are modelled by a supply `gen : Nat → String` indexed by
  call site within one builder invocation (the pipeline never inspects these
  strings).
* Raising / catching exceptions is modelled with `Except String`; a caught
  `try`/`except` block becomes a `match` on the `Except` value.
* Python dicts built by the response builders become the structures below;
  `type` / `class` are Lean keywords, so those dict keys are embedded as
  `atype` / `ltype` / `lclass`.  The nested `ui_payload: {components: [...]}`
  wrapper is flattened into the `components` field of `RespDict`.
-/

namespace JustNow

/-- One value of the `slots` dict of a response: the builders only ever store
strings and numbers there. -/
inductive SlotVal where
| str (s : String)
| num (q : ℚ)
deriving DecidableEq

/-- A map marker dict, `{"lat": .., "lng": .., "title": ..}`. -/
structure Marker where
  lat : ℚ
  lng : ℚ
  title : Option String
deriving DecidableEq

/-- An action dict, `{"type": .., "url": ..}` (key `type` embedded as `atype`). -/
structure ActionModel where
  atype : String
  url : String
deriving DecidableEq

/-- An item of an `ActionList` component. -/
structure ActionItem where
  id : String
  title : String
  subtitle : Option String
  action : ActionModel
deriving DecidableEq

/-- An item of a `DisambiguationList` component. -/
structure DisambItem where
  id : String
  name : String
  address : String
  lat : ℚ
  lng : ℚ
  distance_meters : Option ℚ
deriving DecidableEq

/-- A UI component dict, discriminated by its `"type"` tag
(schemas.py: InfoCard, ActionList, MapView, DisambiguationList). -/
inductive Component where
| infoCard (widget_id title content_md style : String)
| actionList (widget_id title : String) (items : List ActionItem)
| mapView (widget_id : String) (center : ℚ × ℚ) (zoom : ℚ)
    (markers : List Marker) (route_polyline : Option (List (ℚ × ℚ)))
| disambiguationList (widget_id title message : String) (items : List DisambItem)
deriving DecidableEq

/-- The response dict a builder returns: `{"intent_id", "category",
"ui_schema_version", "slots", "ui_payload": {"components": [...]}}`. -/
structure RespDict where
  intent_id : String
  category : String
  ui_schema_version : String
  slots : List (String × SlotVal)
  components : List Component
deriving DecidableEq

/-- An enriched location dict as built by `search_location` (main.py lines
224-234); dict keys `type` / `class` embedded as `ltype` / `lclass`. -/
structure Location where
  id : String
  name : String
  address : String
  lat : ℚ
  lng : ℚ
  distance_meters : Option ℚ
  importance : ℚ
  ltype : String
  lclass : String
deriving DecidableEq

/-- The route dict returned by `get_route` (main.py lines 297-301). -/
structure RouteData where
  polyline : List (ℚ × ℚ)
  distance_meters : ℚ
  duration_seconds : ℚ
deriving DecidableEq

/-- The intent dict read by the pipeline: the keys `extract_intent` produces
and `process_intent_with_lbs` consumes, each `Option` (absent = `none`). -/
structure IntentDict where
  category : Option String
  intent_type : Option String
  destination_query : Option String
  service_type : Option String
  slots : List (String × String)
  response_language : Option String
deriving DecidableEq

/-- main.py line 64. -/
def DISAMBIGUATION_DISTANCE_THRESHOLD_METERS : ℚ := 500

/-- main.py line 65. -/
def MAX_DISAMBIGUATION_RESULTS : Nat := 5

/-- Python truthiness of an `Optional[float]`: `None` and `0.0` are falsy. -/
def truthyQ : Option ℚ → Bool
| none => false
| some x => decide (x ≠ 0)

/-- Python truthiness of an `Optional[str]`: `None` and `""` are falsy. -/
def truthyOptStr : Option String → Bool
| none => false
| some s => decide (s ≠ "")

/-- Round a rational to the nearest integer, ties to even: the rounding of
Python float formatting with `:.0f` (banker's rounding), on the `ℚ` model. -/
def round_half_even (q : ℚ) : Int :=
  let n : Int := Int.floor q
  let f : ℚ := q - n
  if f < 1/2 then n
  else if 1/2 < f then n + 1
  else if n % 2 = 0 then n else n + 1

/-- `ℚ` model of Python `f"{x:.0f}"`. -/
def format_f0 (q : ℚ) : String := toString (round_half_even q)

/-- `ℚ` model of Python `f"{x:.1f}"` (for the nonnegative values the builders
format: distances and durations). -/
def format_f1 (q : ℚ) : String :=
  let m : Int := round_half_even (q * 10)
  let s : String := if m < 0 then "-" else ""
  s ++ toString (m.natAbs / 10) ++ "." ++ toString (m.natAbs % 10)

/-- Rendering of a number interpolated into an f-string (`f"...{dest_lat}..."`),
modelled by the canonical representation of the `ℚ` value. -/
def qstr (q : ℚ) : String := toString q

/-- The distance suffix of a disambiguation item name (main.py lines 412-418):
empty when `distance_meters` is falsy (absent or `0.0`). -/
def disambig_distance_str (d : Option ℚ) (language : String) : String :=
  match d with
  | none => ""
  | some dist =>
    if dist = 0 then ""
    else if dist < 1000 then
      if language == "en" then " (" ++ format_f0 dist ++ "m)"
      else " (" ++ format_f0 dist ++ "米)"
    else
      if language == "en" then " (" ++ format_f1 (dist / 1000) ++ "km)"
      else " (" ++ format_f1 (dist / 1000) ++ "公里)"

/-- main.py lines 399-445, `build_disambiguation_response`. -/
def build_disambiguation_response (locations : List Location)
    (original_query : String) (language : String) (gen : Nat → String) : RespDict :=
  let title := if language == "zh" then "请选择目的地" else "Select Destination"
  let message :=
    if language == "zh" then "找到多个'" ++ original_query ++ "'相关的地点，请选择："
    else "Multiple locations found for '" ++ original_query ++ "'. Please select:"
  let items := (locations.take MAX_DISAMBIGUATION_RESULTS).map fun loc =>
    { id := loc.id
      name := loc.name ++ disambig_distance_str loc.distance_meters language
      address := loc.address
      lat := loc.lat
      lng := loc.lng
      distance_meters := loc.distance_meters : DisambItem }
  { intent_id := gen 0
    category := "SERVICE"
    ui_schema_version := "1.0"
    slots := [("query", SlotVal.str original_query),
              ("status", SlotVal.str "disambiguation_required")]
    components := [Component.disambiguationList ("disambig_" ++ gen 1) title message items] }

/-- The zoom step function of main.py lines 479-488 (inline in
`build_navigation_response`), extracted as a named helper. -/
def zoom_for_span (max_diff : ℚ) : ℚ :=
  if max_diff > 1/2 then 10
  else if max_diff > 1/5 then 11
  else if max_diff > 1/10 then 12
  else if max_diff > 1/20 then 13
  else 14

/-- The ride subtitle base string of main.py lines 516-523. -/
def nav_subtitle_base (route_data : Option RouteData) (language : String) : String :=
  match route_data with
  | some rd =>
    let dist_km := rd.distance_meters / 1000
    let dur_min := rd.duration_seconds / 60
    let dist_str := if language == "zh" then format_f1 dist_km ++ "公里"
                    else format_f1 dist_km ++ "km"
    let dur_str := if language == "zh" then format_f0 dur_min ++ "分钟"
                   else format_f0 dur_min ++ "min"
    if language == "zh" then dist_str ++ " · 约" ++ dur_str
    else dist_str ++ " · ~" ++ dur_str
  | none => ""

/-- main.py lines 448-582, `build_navigation_response`. -/
def build_navigation_response (user_lat user_lng : Option ℚ) (dest_location : Location)
    (route_data : Option RouteData) (service_type : Option String)
    (language : String) (gen : Nat → String) : RespDict :=
  let dest_lat := dest_location.lat
  let dest_lng := dest_location.lng
  let dest_name := dest_location.name
  let base_markers : List Marker := [⟨dest_lat, dest_lng, some dest_name⟩]
  let markers : List Marker :=
    match user_lat, user_lng with
    | some ula, some uln =>
      if ula ≠ 0 ∧ uln ≠ 0 then
        ⟨ula, uln, some (if language == "zh" then "我的位置" else "My Location")⟩ :: base_markers
      else base_markers
    | _, _ => base_markers
  let zoom_center : ℚ × (ℚ × ℚ) :=
    match route_data, user_lat, user_lng with
    | some _, some ula, some uln =>
      if ula ≠ 0 ∧ uln ≠ 0 then
        let lat_diff := max ula dest_lat - min ula dest_lat
        let lng_diff := max uln dest_lng - min uln dest_lng
        (zoom_for_span (max lat_diff lng_diff), ((ula + dest_lat) / 2, (uln + dest_lng) / 2))
      else (14, (dest_lat, dest_lng))
    | _, _, _ => (14, (dest_lat, dest_lng))
  let map_component : Component :=
    Component.mapView ("map_" ++ gen 1) zoom_center.2 zoom_center.1 markers
      (match route_data with
       | some rd => if rd.polyline ≠ [] then some rd.polyline else none
       | none => none)
  let subtitle_base := nav_subtitle_base route_data language
  let ride_components : List Component :=
    if service_type = some "taxi" then
      [Component.actionList ("rides_" ++ gen 2)
        (if language == "zh" then "为您找到以下车辆" else "Available Rides")
        [ { id := "ride_economy"
            title := if language == "zh" then "快车 - 预计 ¥35" else "Economy - Est. ¥35"
            subtitle := some (if language == "zh" then "距您 2 分钟 · " ++ subtitle_base
                              else "2 min away · " ++ subtitle_base)
            action := ⟨"deep_link", "api:order_ride?type=economy&dest=" ++ dest_name ++
                       "&dest_lat=" ++ qstr dest_lat ++ "&dest_lng=" ++ qstr dest_lng⟩ },
          { id := "ride_premium"
            title := if language == "zh" then "专车 - 预计 ¥58" else "Premium - Est. ¥58"
            subtitle := some (if language == "zh" then "距您 1 分钟 · " ++ subtitle_base
                              else "1 min away · " ++ subtitle_base)
            action := ⟨"deep_link", "api:order_ride?type=premium&dest=" ++ dest_name ++
                       "&dest_lat=" ++ qstr dest_lat ++ "&dest_lng=" ++ qstr dest_lng⟩ },
          { id := "ride_pool"
            title := if language == "zh" then "拼车 - 预计 ¥22" else "Pool - Est. ¥22"
            subtitle := some (if language == "zh" then "距您 4 分钟 · " ++ subtitle_base
                              else "4 min away · " ++ subtitle_base)
            action := ⟨"deep_link", "api:order_ride?type=pool&dest=" ++ dest_name ++
                       "&dest_lat=" ++ qstr dest_lat ++ "&dest_lng=" ++ qstr dest_lng⟩ } ]]
    else []
  let base_slots : List (String × SlotVal) :=
    [("destination", SlotVal.str dest_name),
     ("destination_lat", SlotVal.num dest_lat),
     ("destination_lng", SlotVal.num dest_lng)]
  let route_slots : List (String × SlotVal) :=
    match route_data with
    | some rd => [("distance_meters", SlotVal.num rd.distance_meters),
                  ("duration_seconds", SlotVal.num rd.duration_seconds)]
    | none => []
  let service_slots : List (String × SlotVal) :=
    if truthyOptStr service_type then
      [("service_type", SlotVal.str (service_type.getD ""))]
    else []
  { intent_id := gen 0
    category := "SERVICE"
    ui_schema_version := "1.0"
    slots := base_slots ++ route_slots ++ service_slots
    components := map_component :: ride_components }

/-- The POI distance string of main.py lines 658-664: empty when
`distance_meters` is falsy (absent or `0.0`). -/
def poi_distance_str (d : Option ℚ) (language : String) : String :=
  match d with
  | none => ""
  | some dist =>
    if dist = 0 then ""
    else if dist < 1000 then
      if language == "zh" then format_f0 dist ++ "米" else format_f0 dist ++ "m"
    else
      if language == "zh" then format_f1 (dist / 1000) ++ "公里"
      else format_f1 (dist / 1000) ++ "km"

/-- main.py lines 585-689, `build_poi_search_response`. -/
def build_poi_search_response (locations : List Location) (query : String)
    (user_lat user_lng : Option ℚ) (language : String) (gen : Nat → String) : RespDict :=
  match locations with
  | [] =>
    let title := if language == "zh" then "未找到结果" else "No Results Found"
    let content :=
      if language == "zh" then "抱歉，未能找到'" ++ query ++ "'相关的地点。请尝试其他搜索词。"
      else "Sorry, no locations found for '" ++ query ++ "'. Please try a different search."
    { intent_id := gen 0
      category := "SERVICE"
      ui_schema_version := "1.0"
      slots := [("query", SlotVal.str query), ("results_count", SlotVal.num 0)]
      components := [Component.infoCard ("info_" ++ gen 1) title content "warning"] }
  | l0 :: rest =>
    let locs := l0 :: rest
    let poi_markers : List Marker := (locs.take 10).map fun loc => ⟨loc.lat, loc.lng, some loc.name⟩
    let markers : List Marker :=
      match user_lat, user_lng with
      | some ula, some uln =>
        if ula ≠ 0 ∧ uln ≠ 0 then
          ⟨ula, uln, some (if language == "zh" then "我的位置" else "My Location")⟩ :: poi_markers
        else poi_markers
      | _, _ => poi_markers
    let center : ℚ × ℚ :=
      match user_lat, user_lng with
      | some ula, some uln => if ula ≠ 0 ∧ uln ≠ 0 then (ula, uln) else (l0.lat, l0.lng)
      | _, _ => (l0.lat, l0.lng)
    let list_title := if language == "zh" then "'" ++ query ++ "'搜索结果"
                      else "Results for '" ++ query ++ "'"
    let action_items : List ActionItem := (locs.take 5).map fun loc =>
      let distance_str := poi_distance_str loc.distance_meters language
      { id := loc.id
        title := loc.name
        subtitle := some (if distance_str ≠ "" then
                            distance_str ++ " · " ++ loc.address.take 30 ++ "..."
                          else loc.address.take 40)
        action := ⟨"deep_link", "api:navigate?dest=" ++ loc.name ++ "&lat=" ++ qstr loc.lat ++
                   "&lng=" ++ qstr loc.lng⟩ }
    { intent_id := gen 0
      category := "SERVICE"
      ui_schema_version := "1.0"
      slots := [("query", SlotVal.str query), ("results_count", SlotVal.num locs.length)]
      components := [Component.mapView ("map_" ++ gen 1) center 14 markers none,
                     Component.actionList ("pois_" ++ gen 2) list_title action_items] }

/-- main.py lines 692-717, `build_chat_response`. -/
def build_chat_response (user_text : String) (language : String) (gen : Nat → String) : RespDict :=
  let title := if language == "zh" then "回复" else "Response"
  let content :=
    if language == "zh" then
      "您说：'" ++ user_text ++ "'\n\n这个功能正在开发中。Just Now 目前专注于出行和位置服务。"
    else
      "You said: '" ++ user_text ++ "'\n\nThis feature is under development. Just Now currently focuses on transportation and location services."
  { intent_id := gen 0
    category := "CHAT"
    ui_schema_version := "1.0"
    slots := [("original_query", SlotVal.str user_text)]
    components := [Component.infoCard ("chat_" ++ gen 1) title content "standard"] }

/-- main.py lines 720-741, `create_fallback_response`. -/
def create_fallback_response (error_message : String) (user_text : String)
    (gen : Nat → String) : RespDict :=
  { intent_id := gen 0
    category := "CHAT"
    ui_schema_version := "1.0"
    slots := [("error", SlotVal.str "processing_failed"),
              ("original_query", SlotVal.str (user_text.take 100))]
    components := [Component.infoCard "error_card_01" "Unable to Process Request"
      ("Sorry, I couldn't process your request at this time.\n\n**Your request:** " ++
        user_text.take 100 ++ (if user_text.length > 100 then "..." else "") ++
        "\n\nPlease try again or rephrase your request.")
      "warning"] }

/-- The sort key of main.py line 238, `x.get("distance_meters") or float('inf')`:
Python `or` replaces a falsy value (`None` or `0.0`) by infinity, embedded as
`⊤` in `WithTop ℚ`. -/
def search_sort_key (loc : Location) : WithTop ℚ :=
  match loc.distance_meters with
  | some d => if d = 0 then ⊤ else (d : WithTop ℚ)
  | none => ⊤

/-- The sorting step of `search_location`, main.py lines 236-243: when the
user position is known (both coordinates are not `None`) sort ascending by the
key of line 238, otherwise sort ascending by negated importance (line 240).
Python `list.sort` is stable, as is `List.insertionSort`.  Upstream of this
sort (lines 212-215), `distance_meters` was set to the Haversine distance
from the user for every item when the user position is known, and left `None`
for every item otherwise. -/
def search_sort (user_lat user_lng : Option ℚ) (locations : List Location) : List Location :=
  if user_lat.isSome ∧ user_lng.isSome then
    List.insertionSort (fun a b => search_sort_key a ≤ search_sort_key b) locations
  else
    List.insertionSort (fun a b => -a.importance ≤ -b.importance) locations

/-- The backtick character, written by code point to keep the source free of
raw backticks. -/
def btick : Char := Char.ofNat 96

/-- Model of Python `str.strip()` for the ASCII whitespace the fences use. -/
def pyStrip (s : String) : String := s.trim

/-- The leading code-fence strip of main.py line 142,
`re.sub(r'^` ++ fence ++ `(?:json|JSON)?\s*\n?', '', content)` (fence = three
backticks): drop a leading fence, an optional `json`/`JSON` tag and the
following whitespace run. -/
def strip_leading_fence (s : String) : String :=
  match s.data with
  | c1 :: c2 :: c3 :: rest =>
    if c1 = btick ∧ c2 = btick ∧ c3 = btick then
      let rest2 := if rest.take 4 = ['j', 's', 'o', 'n'] ∨ rest.take 4 = ['J', 'S', 'O', 'N']
                   then rest.drop 4 else rest
      String.mk (rest2.dropWhile Char.isWhitespace)
    else s
  | _ => s

/-- The trailing code-fence strip of main.py line 143: drop a trailing
whitespace run, a closing fence of three backticks and one optional newline
right before it. -/
def strip_trailing_fence (s : String) : String :=
  let rcs := s.data.reverse.dropWhile Char.isWhitespace
  if rcs.take 3 = [btick, btick, btick] then
    let r2 := rcs.drop 3
    let r3 := match r2 with
              | c :: tl => if c = '\n' then tl else r2
              | [] => r2
    String.mk r3.reverse
  else s

/-- The brace extraction of main.py lines 146-149: when the cleaned content
does not start with a brace or bracket, replace it by the substring from its
first opening brace to its last closing brace (the leftmost greedy match of
the pattern), when such a pair exists. -/
def extract_braced (s : String) : String :=
  let cs := s.data
  if cs.head? = some '{' ∨ cs.head? = some '[' then s
  else
    match cs.findIdx? (· = '{'), (cs.reverse.findIdx? (· = '}')) with
    | some i, some rj =>
      let j := cs.length - 1 - rj
      if i < j then String.mk ((cs.drop i).take (j - i + 1)) else s
    | _, _ => s

/-- main.py lines 136-151, `clean_llm_response`. -/
def clean_llm_response (raw_content : String) : String :=
  if raw_content = "" then raw_content
  else
    let content := pyStrip raw_content
    let content := strip_leading_fence content
    let content := strip_trailing_fence content
    let content := pyStrip content
    extract_braced content

/-- Presence of a CJK code point, main.py line 393:
`any('一' <= c <= '鿿' for c in user_text)`. -/
def containsCJK (s : String) : Bool :=
  s.data.any fun c => Char.ofNat 0x4e00 ≤ c ∧ c ≤ Char.ofNat 0x9fff

/-- The default intent of main.py lines 387-394, returned by `extract_intent`
when the collaborator call, the timeout or the JSON decode fails. -/
def default_intent (user_text : String) : IntentDict :=
  { category := some "CHAT"
    intent_type := some "general_chat"
    destination_query := none
    service_type := none
    slots := [("original_query", user_text)]
    response_language := some (if containsCJK user_text then "zh" else "en") }

/-- main.py lines 351-394, `extract_intent`.  The language-model collaborator
is the `llm_result` argument (`Except.error` = the call raised or timed out);
`json.loads` is the `decode` argument (`none` = a `JSONDecodeError`).  The
`try`/`except` block becomes the two fallback branches: any failure yields
`default_intent`, so the function is total and never propagates a
collaborator failure. -/
def extract_intent (decode : String → Option IntentDict)
    (llm_result : Except Unit String) (user_text : String) : IntentDict :=
  match llm_result with
  | Except.ok raw_content =>
    match decode (clean_llm_response raw_content) with
    | some result => result
    | none => default_intent user_text
  | Except.error _ => default_intent user_text

/-- The disambiguation decision of main.py lines 788-804, on the location
list returned by the search: with at least two results, compare the top two
distances when both are known (strict 500 m threshold on their difference),
else the top two importance scores (strict 0.1 threshold on the absolute
gap). -/
def needs_disambiguation (locations : List Location) : Bool :=
  match locations with
  | l0 :: l1 :: _ =>
    match l0.distance_meters, l1.distance_meters with
    | some first_dist, some second_dist =>
      decide (second_dist - first_dist < DISAMBIGUATION_DISTANCE_THRESHOLD_METERS)
    | _, _ => decide (|l0.importance - l1.importance| < 1/10)
  | _ => false

/-- main.py lines 746-836, `process_intent_with_lbs`.  The three collaborator
results are arguments: `intent` (what `extract_intent` returned), `locations`
(what `search_location` returned) and `route_oracle` (what `get_route` would
return when called).  Line 814 tests `is not None` (not truthiness), so the
route is fetched even for `0.0` coordinates; the builders then apply
truthiness themselves. -/
def process_intent_with_lbs (intent : IntentDict) (locations : List Location)
    (route_oracle : Option RouteData) (text_input : String)
    (user_lat user_lng : Option ℚ) (gen : Nat → String) : RespDict :=
  let intent_type := intent.intent_type.getD "general_chat"
  let service_type := intent.service_type
  let language := intent.response_language.getD "zh"
  if intent_type = "general_chat" ∨ ¬ truthyOptStr intent.destination_query then
    build_chat_response text_input language gen
  else
    let dq := intent.destination_query.getD ""
    match locations with
    | [] => build_poi_search_response [] dq user_lat user_lng language gen
    | l0 :: rest =>
      if (l0 :: rest).length > 1 ∧ needs_disambiguation (l0 :: rest) then
        build_disambiguation_response (l0 :: rest) dq language gen
      else
        let route_data :=
          if user_lat.isSome ∧ user_lng.isSome ∧
             (intent_type = "navigation" ∨ intent_type = "ride_hailing") then
            route_oracle
          else none
        if intent_type = "search_poi" then
          build_poi_search_response (l0 :: rest) dq user_lat user_lng language gen
        else
          build_navigation_response user_lat user_lng l0 route_data service_type language gen

/-- schemas.py line 112: the `category` literal of `GenUIResponse`. -/
def validCategoryB (c : String) : Bool := c == "SERVICE" || c == "CHAT"

/-- schemas.py line 58: the `style` literal of `InfoCard`. -/
def validStyleB (s : String) : Bool := s == "standard" || s == "highlight" || s == "warning"

/-- schemas.py line 15: the `type` literal of `ActionModel`. -/
def validActionTypeB (t : String) : Bool :=
  t == "deep_link" || t == "api_call" || t == "toast" || t == "select_location"

/-- The literal constraints pydantic checks on one component. -/
def validComponentB : Component → Bool
| Component.infoCard _ _ _ style => validStyleB style
| Component.actionList _ _ items => items.all fun it => validActionTypeB it.action.atype
| Component.mapView _ _ _ _ _ => true
| Component.disambiguationList _ _ _ _ => true

/-- The envelope constraints of `GenUIResponse.model_validate` (schemas.py
lines 109-115): `category` in its closed set, `ui_schema_version` fixed at
"1.0", every component valid.  The structural fields (`intent_id`, `slots`,
`ui_payload`) exist by construction of `RespDict`. -/
def validEnvelopeB (r : RespDict) : Bool :=
  validCategoryB r.category && (r.ui_schema_version == "1.0") && r.components.all validComponentB

/-- `GenUIResponse.model_validate` as a checked conversion: `Except.error` is
a raised `ValidationError`. -/
def model_validate (r : RespDict) : Except String RespDict :=
  if validEnvelopeB r then Except.ok r else Except.error "ValidationError"

/-- main.py lines 849-882, `process_intent` (the orchestrator boundary).
`pipeline_outcome` is the outcome of awaiting `process_intent_with_lbs`:
`Except.ok` a response dict, or `Except.error` for an exception raised
anywhere in the pipeline.  The `try` block covers both the pipeline call and
the validation of its result; the `except` branch validates the fallback
response, and that validation is not itself guarded. -/
def process_intent (pipeline_outcome : Except String RespDict)
    (text_input : String) (gen : Nat → String) : Except String RespDict :=
  match pipeline_outcome with
  | Except.ok ui_data =>
    match model_validate ui_data with
    | Except.ok response => Except.ok response
    | Except.error e => model_validate (create_fallback_response e text_input gen)
  | Except.error e => model_validate (create_fallback_response e text_input gen)

/-- The zoom of the first `MapView` component of a response. -/
def mapZoomOf (r : RespDict) : Option ℚ :=
  r.components.findSome? fun c =>
    match c with
    | Component.mapView _ _ zoom _ _ => some zoom
    | _ => none

/-- The center of the first `MapView` component of a response. -/
def mapCenterOf (r : RespDict) : Option (ℚ × ℚ) :=
  r.components.findSome? fun c =>
    match c with
    | Component.mapView _ center _ _ _ => some center
    | _ => none

/-- The markers of the first `MapView` component of a response. -/
def mapMarkersOf (r : RespDict) : Option (List Marker) :=
  r.components.findSome? fun c =>
    match c with
    | Component.mapView _ _ _ markers _ => some markers
    | _ => none

/-- Whether a response carries a `DisambiguationList` component. -/
def hasDisambig (r : RespDict) : Bool :=
  r.components.any fun c =>
    match c with
    | Component.disambiguationList _ _ _ _ => true
    | _ => false

/-- Real-valued model of Python `math.radians`: degrees to radians. -/
noncomputable def radians (x : ℝ) : ℝ := x * Real.pi / 180

/-- Real-valued model of Python `math.atan2` (the C-library two-argument
arctangent, on reals, where no signed zeros exist). -/
noncomputable def atan2 (y x : ℝ) : ℝ :=
  if 0 < x then Real.arctan (y / x)
  else if x < 0 ∧ 0 ≤ y then Real.arctan (y / x) + Real.pi
  else if x < 0 then Real.arctan (y / x) - Real.pi
  else if 0 < y then Real.pi / 2
  else if y < 0 then -(Real.pi / 2)
  else 0

/-- The intermediate `a` of `haversine_distance` (main.py lines 129-130):
`sin²(Δφ/2) + cos φ₁ · cos φ₂ · sin²(Δλ/2)`. -/
noncomputable def hav_a (lat1 lng1 lat2 lng2 : ℝ) : ℝ :=
  Real.sin (radians (lat2 - lat1) / 2) ^ 2 +
    Real.cos (radians lat1) * Real.cos (radians lat2) * Real.sin (radians (lng2 - lng1) / 2) ^ 2

/-- main.py lines 121-133, `haversine_distance`: great-circle distance in
meters with Earth radius 6 371 000 m, modelled over `ℝ` (the source computes
with transcendental float functions). -/
noncomputable def haversine_distance (lat1 lng1 lat2 lng2 : ℝ) : ℝ :=
  6371000 * (2 * atan2 (Real.sqrt (hav_a lat1 lng1 lat2 lng2))
    (Real.sqrt (1 - hav_a lat1 lng1 lat2 lng2)))

lemma radians_sub_neg (u v : ℝ) : radians (u - v) = -(radians (v - u)) := by
  unfold radians; ring

lemma sin_sq_radians_sub_comm (u v : ℝ) :
    Real.sin (radians (u - v) / 2) ^ 2 = Real.sin (radians (v - u) / 2) ^ 2 := by
  rw [radians_sub_neg, neg_div, Real.sin_neg]; ring

lemma hav_a_comm (lat1 lng1 lat2 lng2 : ℝ) :
    hav_a lat1 lng1 lat2 lng2 = hav_a lat2 lng2 lat1 lng1 := by
  unfold hav_a
  rw [sin_sq_radians_sub_comm lat2 lat1, sin_sq_radians_sub_comm lng2 lng1]; ring

lemma hav_a_self (lat lng : ℝ) : hav_a lat lng lat lng = 0 := by
  unfold hav_a radians; simp

lemma atan2_zero_one : atan2 0 1 = 0 := by
  unfold atan2; norm_num

/-- C7: the Haversine distance function (Earth radius 6 371 000 m) is
symmetric and zero at identical points: dist(A,B) = dist(B,A) and
dist(A,A) = 0 (exactly, over the real-number model, hence within any
floating-point tolerance). -/
theorem claim_c7_haversine_symm_self_zero :
    ∀ lat1 lng1 lat2 lng2 : ℝ,
      haversine_distance lat1 lng1 lat2 lng2 = haversine_distance lat2 lng2 lat1 lng1 ∧
      haversine_distance lat1 lng1 lat1 lng1 = 0 := by
  intro lat1 lng1 lat2 lng2
  constructor
  · unfold haversine_distance
    rw [hav_a_comm]
  · unfold haversine_distance
    rw [hav_a_self]
    norm_num [atan2_zero_one]

/-- C10: the generic fallback envelope always has category CHAT, schema
version "1.0", slots exactly {error: processing_failed, original_query:
first 100 characters of the input}, and a single InfoCard with style
"warning" as its payload. -/
theorem claim_c10_fallback_shape :
    ∀ (e t : String) (gen : Nat → String),
      (create_fallback_response e t gen).category = "CHAT" ∧
      (create_fallback_response e t gen).ui_schema_version = "1.0" ∧
      (create_fallback_response e t gen).slots =
        [("error", SlotVal.str "processing_failed"),
         ("original_query", SlotVal.str (t.take 100))] ∧
      ∃ wid title content,
        (create_fallback_response e t gen).components =
          [Component.infoCard wid title content "warning"] := by
  intro e t gen
  exact ⟨rfl, rfl, rfl, _, _, _, rfl⟩

/-- C8: every disambiguation response consists of exactly one
DisambiguationList component whose item list is capped at 5 entries,
however many locations are supplied. -/
theorem claim_c8_disambig_capped :
    ∀ (locations : List Location) (q lang : String) (gen : Nat → String),
      ∃ wid title message items,
        (build_disambiguation_response locations q lang gen).components =
          [Component.disambiguationList wid title message items] ∧
        items.length ≤ 5 := by
  intro locations q lang gen
  refine ⟨_, _, _, _, rfl, ?_⟩
  simp only [List.length_map, List.length_take, MAX_DISAMBIGUATION_RESULTS]
  omega

/-- C9: a user latitude or longitude exactly 0.0 is treated by the response
builders like an absent user position: the navigation builder produces the
same response (no user marker, zoom 14, centered on the destination), and the
POI builder produces the same response (no user marker, centered on the first
result). -/
theorem claim_c9_zero_coordinate_like_absent
    (user_lat user_lng : Option ℚ) (dest : Location) (route : Option RouteData)
    (st : Option String) (lang : String) (gen : Nat → String)
    (locs : List Location) (q : String) (l0 : Location) (ls : List Location)
    (h : user_lat = some 0 ∨ user_lng = some 0) (hlocs : locs = l0 :: ls) :
    build_navigation_response user_lat user_lng dest route st lang gen =
      build_navigation_response none none dest route st lang gen ∧
    build_poi_search_response locs q user_lat user_lng lang gen =
      build_poi_search_response locs q none none lang gen ∧
    mapZoomOf (build_navigation_response none none dest route st lang gen) = some 14 ∧
    mapCenterOf (build_navigation_response none none dest route st lang gen) =
      some (dest.lat, dest.lng) ∧
    mapMarkersOf (build_navigation_response none none dest route st lang gen) =
      some [⟨dest.lat, dest.lng, some dest.name⟩] ∧
    mapCenterOf (build_poi_search_response locs q none none lang gen) =
      some (l0.lat, l0.lng) ∧
    mapMarkersOf (build_poi_search_response locs q none none lang gen) =
      some ((locs.take 10).map fun loc => ⟨loc.lat, loc.lng, some loc.name⟩) := by
  subst hlocs
  refine ⟨?_, ?_, ?_, ?_, ?_, ?_, ?_⟩
  · rcases h with h | h
    · subst h
      rcases user_lng with _ | b <;> rcases route with _ | rd <;>
        simp [build_navigation_response]
    · subst h
      rcases user_lat with _ | a <;> rcases route with _ | rd <;>
        simp [build_navigation_response]
  · rcases h with h | h
    · subst h
      rcases user_lng with _ | b <;> simp [build_poi_search_response]
    · subst h
      rcases user_lat with _ | a <;> simp [build_poi_search_response]
  · rcases route with _ | rd <;> rfl
  · rcases route with _ | rd <;> rfl
  · rcases route with _ | rd <;> rfl
  · rfl
  · rfl

/-- C9 witness at a concrete input: user latitude 0, user longitude 5. -/
theorem claim_c9_witness :
    ((some (0 : ℚ) = some (0 : ℚ) ∨ (some (5 : ℚ) : Option ℚ) = some 0) ∧
      ([⟨"loc_1", "A", "addr", 31, 119, none, 1/2, "station", "railway"⟩] : List Location) =
        [⟨"loc_1", "A", "addr", 31, 119, none, 1/2, "station", "railway"⟩]) ∧
    (build_navigation_response (some 0) (some 5)
        ⟨"loc_1", "A", "addr", 31, 119, none, 1/2, "station", "railway"⟩ none none "zh"
        (fun _ => "u") =
      build_navigation_response none none
        ⟨"loc_1", "A", "addr", 31, 119, none, 1/2, "station", "railway"⟩ none none "zh"
        (fun _ => "u") ∧
      build_poi_search_response
        [⟨"loc_1", "A", "addr", 31, 119, none, 1/2, "station", "railway"⟩] "q"
        (some 0) (some 5) "zh" (fun _ => "u") =
      build_poi_search_response
        [⟨"loc_1", "A", "addr", 31, 119, none, 1/2, "station", "railway"⟩] "q"
        none none "zh" (fun _ => "u") ∧
      mapZoomOf (build_navigation_response none none
        ⟨"loc_1", "A", "addr", 31, 119, none, 1/2, "station", "railway"⟩ none none "zh"
        (fun _ => "u")) = some 14 ∧
      mapCenterOf (build_navigation_response none none
        ⟨"loc_1", "A", "addr", 31, 119, none, 1/2, "station", "railway"⟩ none none "zh"
        (fun _ => "u")) =
        some ((⟨"loc_1", "A", "addr", 31, 119, none, 1/2, "station", "railway"⟩ : Location).lat,
          (⟨"loc_1", "A", "addr", 31, 119, none, 1/2, "station", "railway"⟩ : Location).lng) ∧
      mapMarkersOf (build_navigation_response none none
        ⟨"loc_1", "A", "addr", 31, 119, none, 1/2, "station", "railway"⟩ none none "zh"
        (fun _ => "u")) =
        some [⟨(⟨"loc_1", "A", "addr", 31, 119, none, 1/2, "station", "railway"⟩ : Location).lat,
          (⟨"loc_1", "A", "addr", 31, 119, none, 1/2, "station", "railway"⟩ : Location).lng,
          some (⟨"loc_1", "A", "addr", 31, 119, none, 1/2, "station", "railway"⟩ : Location).name⟩] ∧
      mapCenterOf (build_poi_search_response
        [⟨"loc_1", "A", "addr", 31, 119, none, 1/2, "station", "railway"⟩] "q"
        none none "zh" (fun _ => "u")) =
        some ((⟨"loc_1", "A", "addr", 31, 119, none, 1/2, "station", "railway"⟩ : Location).lat,
          (⟨"loc_1", "A", "addr", 31, 119, none, 1/2, "station", "railway"⟩ : Location).lng) ∧
      mapMarkersOf (build_poi_search_response
        [⟨"loc_1", "A", "addr", 31, 119, none, 1/2, "station", "railway"⟩] "q"
        none none "zh" (fun _ => "u")) =
        some (([(⟨"loc_1", "A", "addr", 31, 119, none, 1/2, "station", "railway"⟩ : Location)].take 10).map
          fun loc => ⟨loc.lat, loc.lng, some loc.name⟩)) :=
  ⟨⟨Or.inl rfl, rfl⟩,
    claim_c9_zero_coordinate_like_absent (some 0) (some 5)
      ⟨"loc_1", "A", "addr", 31, 119, none, 1/2, "station", "railway"⟩ none none "zh"
      (fun _ => "u") [⟨"loc_1", "A", "addr", 31, 119, none, 1/2, "station", "railway"⟩] "q"
      ⟨"loc_1", "A", "addr", 31, 119, none, 1/2, "station", "railway"⟩ []
      (Or.inl rfl) rfl⟩

/-- C4 counterexample: with the user position known ((30, 118), both nonzero)
and destination (31, 118) — a coordinate span of 1.0° — but no route data, the
navigation builder emits zoom 14, while the claimed step function of the span
gives 10.  The zoom is therefore not a function of the span alone. -/
theorem claim_c4_cex :
    mapZoomOf (build_navigation_response (some 30) (some 118)
        ⟨"loc_1", "A", "addr", 31, 118, none, 1/2, "station", "railway"⟩
        none none "zh" (fun _ => "u")) = some 14 ∧
    zoom_for_span (max (max (30 : ℚ) 31 - min (30 : ℚ) 31)
        (max (118 : ℚ) 118 - min (118 : ℚ) 118)) = 10 ∧
    (14 : ℚ) ≠ 10 := by
  refine ⟨rfl, ?_, by norm_num⟩
  rw [show (max (max (30 : ℚ) 31 - min (30 : ℚ) 31)
      (max (118 : ℚ) 118 - min (118 : ℚ) 118)) = 1 by norm_num [max_def, min_def]]
  norm_num [zoom_for_span]

/-- C4 (amended): when route data is present and both user coordinates are
known and nonzero, the navigation builder's zoom is exactly the step function
of the coordinate span max(lat diff, lng diff): span > 0.5° → 10; > 0.2° → 11;
> 0.1° → 12; > 0.05° → 13; else 14; moreover this step function is monotone
non-increasing, sends span 0 to 14 and span 1 to 10.  In every other case —
route absent, a user coordinate absent, or a user coordinate zero — the zoom
is 14 regardless of the span. -/
theorem claim_c4_zoom_step (ula uln : ℚ) (h1 : ula ≠ 0) (h2 : uln ≠ 0)
    (dest : Location) (rd : RouteData) (st : Option String) (lang : String)
    (gen : Nat → String) :
    mapZoomOf (build_navigation_response (some ula) (some uln) dest (some rd) st lang gen) =
      some (zoom_for_span (max (max ula dest.lat - min ula dest.lat)
        (max uln dest.lng - min uln dest.lng))) ∧
    (∀ s t : ℚ, s ≤ t → zoom_for_span t ≤ zoom_for_span s) ∧
    zoom_for_span 0 = 14 ∧ zoom_for_span 1 = 10 ∧
    (∀ (ul2 vl2 : Option ℚ) (route2 : Option RouteData),
      route2 = none ∨ ul2 = none ∨ vl2 = none ∨ ul2 = some 0 ∨ vl2 = some 0 →
      mapZoomOf (build_navigation_response ul2 vl2 dest route2 st lang gen) = some 14) := by
  refine ⟨?_, ?_, by norm_num [zoom_for_span], by norm_num [zoom_for_span], ?_⟩
  · simp [build_navigation_response, mapZoomOf, h1, h2]
  · intro s t hst
    unfold zoom_for_span
    split_ifs <;> linarith
  · intro ul2 vl2 route2 h
    rcases h with h | h | h | h | h
    · subst h; simp [build_navigation_response, mapZoomOf]
    · subst h; rcases route2 with _ | r2 <;> simp [build_navigation_response, mapZoomOf]
    · subst h; rcases route2 with _ | r2 <;> rcases ul2 with _ | a <;>
        simp [build_navigation_response, mapZoomOf]
    · subst h; rcases route2 with _ | r2 <;> rcases vl2 with _ | b <;>
        simp [build_navigation_response, mapZoomOf]
    · subst h; rcases route2 with _ | r2 <;> rcases ul2 with _ | a <;>
        simp [build_navigation_response, mapZoomOf]

/-- C4 witness at a concrete input: user (30, 118), destination (31, 118),
route present. -/
theorem claim_c4_witness :
    ((30 : ℚ) ≠ 0 ∧ (118 : ℚ) ≠ 0) ∧
    (mapZoomOf (build_navigation_response (some 30) (some 118)
        ⟨"loc_1", "A", "addr", 31, 118, none, 1/2, "station", "railway"⟩
        (some ⟨[(30, 118), (31, 118)], 111000, 3600⟩) none "zh" (fun _ => "u")) =
      some (zoom_for_span (max
        (max 30 (⟨"loc_1", "A", "addr", 31, 118, none, 1/2, "station", "railway"⟩ : Location).lat -
          min 30 (⟨"loc_1", "A", "addr", 31, 118, none, 1/2, "station", "railway"⟩ : Location).lat)
        (max 118 (⟨"loc_1", "A", "addr", 31, 118, none, 1/2, "station", "railway"⟩ : Location).lng -
          min 118 (⟨"loc_1", "A", "addr", 31, 118, none, 1/2, "station", "railway"⟩ : Location).lng))) ∧
      (∀ s t : ℚ, s ≤ t → zoom_for_span t ≤ zoom_for_span s) ∧
      zoom_for_span 0 = 14 ∧ zoom_for_span 1 = 10 ∧
      (∀ (ul2 vl2 : Option ℚ) (route2 : Option RouteData),
        route2 = none ∨ ul2 = none ∨ vl2 = none ∨ ul2 = some 0 ∨ vl2 = some 0 →
        mapZoomOf (build_navigation_response ul2 vl2
            ⟨"loc_1", "A", "addr", 31, 118, none, 1/2, "station", "railway"⟩ route2 none "zh"
            (fun _ => "u")) = some 14)) :=
  ⟨⟨by norm_num, by norm_num⟩,
    claim_c4_zoom_step 30 118 (by norm_num) (by norm_num)
      ⟨"loc_1", "A", "addr", 31, 118, none, 1/2, "station", "railway"⟩
      ⟨[(30, 118), (31, 118)], 111000, 3600⟩ none "zh" (fun _ => "u")⟩

/-- C5 counterexample: with both the user position ((30, 118), nonzero) and
the destination (31, 119) known but no route data, the navigation builder
centers the map on the destination (31, 119), not on the midpoint
(30.5, 118.5). -/
theorem claim_c5_cex :
    mapCenterOf (build_navigation_response (some 30) (some 118)
        ⟨"loc_2", "B", "addr", 31, 119, none, 1/2, "station", "railway"⟩
        none none "zh" (fun _ => "u")) = some (31, 119) ∧
    ((31 : ℚ), (119 : ℚ)) ≠ (((30 : ℚ) + 31) / 2, ((118 : ℚ) + 119) / 2) :=
  ⟨rfl, by norm_num [Prod.ext_iff]⟩

/-- C5 (amended): the navigation builder centers the map on the midpoint of
user and destination exactly when route data is present and both user
coordinates are known and nonzero; when the route is absent or a user
coordinate is missing, the center is the destination itself (see C9 for
zero coordinates). -/
theorem claim_c5_center (ula uln : ℚ) (h1 : ula ≠ 0) (h2 : uln ≠ 0)
    (dest : Location) (rd : RouteData) (st : Option String) (lang : String)
    (gen : Nat → String) :
    mapCenterOf (build_navigation_response (some ula) (some uln) dest (some rd) st lang gen) =
      some ((ula + dest.lat) / 2, (uln + dest.lng) / 2) ∧
    (∀ (ul2 vl2 : Option ℚ) (route2 : Option RouteData),
      route2 = none ∨ ul2 = none ∨ vl2 = none →
      mapCenterOf (build_navigation_response ul2 vl2 dest route2 st lang gen) =
        some (dest.lat, dest.lng)) := by
  constructor
  · simp [build_navigation_response, mapCenterOf, h1, h2]
  · intro ul2 vl2 route2 h
    rcases h with h | h | h
    · subst h; simp [build_navigation_response, mapCenterOf]
    · subst h; rcases route2 with _ | r2 <;> simp [build_navigation_response, mapCenterOf]
    · subst h; rcases route2 with _ | r2 <;> rcases ul2 with _ | a <;>
        simp [build_navigation_response, mapCenterOf]

/-- C5 witness at a concrete input: user (30, 118), destination (31, 119),
route present. -/
theorem claim_c5_witness :
    ((30 : ℚ) ≠ 0 ∧ (118 : ℚ) ≠ 0) ∧
    (mapCenterOf (build_navigation_response (some 30) (some 118)
        ⟨"loc_2", "B", "addr", 31, 119, none, 1/2, "station", "railway"⟩
        (some ⟨[(30, 118), (31, 119)], 150000, 5400⟩) none "zh" (fun _ => "u")) =
      some ((30 + (⟨"loc_2", "B", "addr", 31, 119, none, 1/2, "station", "railway"⟩ : Location).lat) / 2,
        (118 + (⟨"loc_2", "B", "addr", 31, 119, none, 1/2, "station", "railway"⟩ : Location).lng) / 2) ∧
    (∀ (ul2 vl2 : Option ℚ) (route2 : Option RouteData),
      route2 = none ∨ ul2 = none ∨ vl2 = none →
      mapCenterOf (build_navigation_response ul2 vl2
          ⟨"loc_2", "B", "addr", 31, 119, none, 1/2, "station", "railway"⟩ route2 none "zh"
          (fun _ => "u")) =
        some ((⟨"loc_2", "B", "addr", 31, 119, none, 1/2, "station", "railway"⟩ : Location).lat,
          (⟨"loc_2", "B", "addr", 31, 119, none, 1/2, "station", "railway"⟩ : Location).lng))) :=
  ⟨⟨by norm_num, by norm_num⟩,
    claim_c5_center 30 118 (by norm_num) (by norm_num)
      ⟨"loc_2", "B", "addr", 31, 119, none, 1/2, "station", "railway"⟩
      ⟨[(30, 118), (31, 119)], 150000, 5400⟩ none "zh" (fun _ => "u")⟩

/-- C3 evidence: with the user position known, a result lying exactly at the
user's coordinates (Haversine distance 0.0, see `hav_a_self`) is sorted LAST,
not first: the sort key `x.get("distance_meters") or float('inf')` treats the
falsy distance `0.0` like a missing one.  Here the list [A at 0 m, B at
1000 m] is reordered to [B, A], which is not ascending by distance. -/
theorem claim_c3_zero_distance_sorted_last :
    search_sort (some 32) (some 118)
      [⟨"loc_a", "A", "addr", 32, 118, some 0, 1, "station", "railway"⟩,
       ⟨"loc_b", "B", "addr", 33, 118, some 1000, 0, "station", "railway"⟩] =
      [⟨"loc_b", "B", "addr", 33, 118, some 1000, 0, "station", "railway"⟩,
       ⟨"loc_a", "A", "addr", 32, 118, some 0, 1, "station", "railway"⟩] := by
  decide

lemma fallback_valid (e t : String) (gen : Nat → String) :
    validEnvelopeB (create_fallback_response e t gen) = true := rfl

/-- C1: the orchestrator boundary always returns (never raises): whatever the
pipeline's outcome — a response dict or an exception raised anywhere inside —
`process_intent` yields `Except.ok` of a response satisfying the envelope
constraints, and an exception outcome is converted into exactly the fallback
envelope. -/
theorem claim_c1_process_intent_total :
    ∀ (pipeline_outcome : Except String RespDict) (text : String) (gen : Nat → String),
      (∃ r, process_intent pipeline_outcome text gen = Except.ok r ∧
        validEnvelopeB r = true) ∧
      (∀ e, process_intent (Except.error e) text gen =
        Except.ok (create_fallback_response e text gen)) := by
  intro pipeline_outcome text gen
  constructor
  · cases pipeline_outcome with
    | error e =>
      exact ⟨create_fallback_response e text gen,
        by simp [process_intent, model_validate, fallback_valid], fallback_valid e text gen⟩
    | ok d =>
      by_cases hv : validEnvelopeB d = true
      · exact ⟨d, by simp [process_intent, model_validate, hv], hv⟩
      · refine ⟨create_fallback_response "ValidationError" text gen, ?_,
          fallback_valid _ _ _⟩
        simp [process_intent, model_validate, hv, fallback_valid]
  · intro e
    simp [process_intent, model_validate, fallback_valid]

/-- C6: on collaborator failure or timeout (`Except.error`), or on output that
fails to decode as JSON after the code-fence stripping of
`clean_llm_response`, intent extraction returns the default intent — category
CHAT, intent_type general_chat, no destination query, slots
{original_query: input} — with language "zh" iff the input contains a CJK
code point, else "en"; it never propagates the failure. -/
theorem claim_c6_extract_intent_fallback
    (decode : String → Option IntentDict) (llm_result : Except Unit String)
    (user_text : String)
    (hfail : ∀ raw, llm_result = Except.ok raw →
      decode (clean_llm_response raw) = none) :
    extract_intent decode llm_result user_text = default_intent user_text ∧
    (default_intent user_text).category = some "CHAT" ∧
    (default_intent user_text).intent_type = some "general_chat" ∧
    (default_intent user_text).destination_query = none ∧
    (default_intent user_text).slots = [("original_query", user_text)] ∧
    ((default_intent user_text).response_language = some "zh" ↔ containsCJK user_text = true) ∧
    ((default_intent user_text).response_language = some "en" ↔ containsCJK user_text = false) := by
  refine ⟨?_, rfl, rfl, rfl, rfl, ?_, ?_⟩
  · cases llm_result with
    | error e => rfl
    | ok raw => simp [extract_intent, hfail raw rfl]
  · cases hc : containsCJK user_text <;> simp [default_intent, hc]
  · cases hc : containsCJK user_text <;> simp [default_intent, hc]

/-- C6 witness: an unparseable collaborator output over a Latin-script input
falls back to the default intent with language "en". -/
theorem claim_c6_witness :
    (∀ raw, (Except.ok "this is not json" : Except Unit String) = Except.ok raw →
      (fun _ : String => (none : Option IntentDict)) (clean_llm_response raw) = none) ∧
    (extract_intent (fun _ => none) (Except.ok "this is not json") "hello" =
      default_intent "hello" ∧
    (default_intent "hello").category = some "CHAT" ∧
    (default_intent "hello").intent_type = some "general_chat" ∧
    (default_intent "hello").destination_query = none ∧
    (default_intent "hello").slots = [("original_query", "hello")] ∧
    ((default_intent "hello").response_language = some "zh" ↔ containsCJK "hello" = true) ∧
    ((default_intent "hello").response_language = some "en" ↔ containsCJK "hello" = false)) :=
  ⟨fun _ _ => rfl,
    claim_c6_extract_intent_fallback (fun _ => none) (Except.ok "this is not json")
      "hello" (fun _ _ => rfl)⟩

lemma hasDisambig_disambig (locs : List Location) (q lang : String) (gen : Nat → String) :
    hasDisambig (build_disambiguation_response locs q lang gen) = true := rfl

lemma hasDisambig_chat (t lang : String) (gen : Nat → String) :
    hasDisambig (build_chat_response t lang gen) = false := rfl

lemma hasDisambig_poi (locs : List Location) (q : String) (ula uln : Option ℚ)
    (lang : String) (gen : Nat → String) :
    hasDisambig (build_poi_search_response locs q ula uln lang gen) = false := by
  cases locs <;> rfl

lemma hasDisambig_nav (ula uln : Option ℚ) (dest : Location) (route : Option RouteData)
    (st : Option String) (lang : String) (gen : Nat → String) :
    hasDisambig (build_navigation_response ula uln dest route st lang gen) = false := by
  by_cases hst : st = some "taxi" <;> simp [build_navigation_response, hasDisambig, hst]

/-- Under an actionable intent, the pipeline returns a disambiguation
response exactly when `needs_disambiguation` says so. -/
lemma pipeline_disambig_eq (intent : IntentDict) (l0 l1 : Location)
    (rest : List Location) (route_oracle : Option RouteData) (text : String)
    (user_lat user_lng : Option ℚ) (gen : Nat → String)
    (hIt : intent.intent_type.getD "general_chat" ≠ "general_chat")
    (hDq : truthyOptStr intent.destination_query = true) :
    hasDisambig (process_intent_with_lbs intent (l0 :: l1 :: rest) route_oracle
      text user_lat user_lng gen) = needs_disambiguation (l0 :: l1 :: rest) := by
  have hcond : ¬(intent.intent_type.getD "general_chat" = "general_chat" ∨
      ¬ (truthyOptStr intent.destination_query = true)) := by
    rintro (h | h)
    · exact hIt h
    · exact h hDq
  have hlen : (l0 :: l1 :: rest).length > 1 := by
    simp [List.length_cons]
  simp only [process_intent_with_lbs]
  rw [if_neg hcond]
  by_cases hnd : needs_disambiguation (l0 :: l1 :: rest) = true
  · rw [if_pos ⟨hlen, hnd⟩, hasDisambig_disambig, hnd]
  · have hnd' : needs_disambiguation (l0 :: l1 :: rest) = false := by
      cases h : needs_disambiguation (l0 :: l1 :: rest)
      · rfl
      · exact absurd h hnd
    rw [if_neg (fun hc => hnd hc.2)]
    by_cases hsp : intent.intent_type.getD "general_chat" = "search_poi"
    · rw [if_pos hsp, hasDisambig_poi, hnd']
    · rw [if_neg hsp, hasDisambig_nav, hnd']

/-- C2: for a pipeline run reaching the search with an actionable intent and
at least two results (whose distances, as `search_location` produces them, are
either all known or all unknown), the disambiguation branch is taken iff the
top-two distance gap is strictly under 500 m (distances known) or the top-two
importance gap is strictly under 0.1 (distances unknown); an exactly-equal gap
does not trigger it. -/
theorem claim_c2_disambiguation_iff (intent : IntentDict) (l0 l1 : Location)
    (rest : List Location) (route_oracle : Option RouteData) (text : String)
    (user_lat user_lng : Option ℚ) (gen : Nat → String)
    (hIt : intent.intent_type.getD "general_chat" ≠ "general_chat")
    (hDq : truthyOptStr intent.destination_query = true)
    (hDist : (l0.distance_meters.isSome ∧ l1.distance_meters.isSome) ∨
      (l0.distance_meters = none ∧ l1.distance_meters = none)) :
    (hasDisambig (process_intent_with_lbs intent (l0 :: l1 :: rest) route_oracle
        text user_lat user_lng gen) = true) ↔
      ((∃ d0 d1, l0.distance_meters = some d0 ∧ l1.distance_meters = some d1 ∧
          d1 - d0 < 500) ∨
        (l0.distance_meters = none ∧ l1.distance_meters = none ∧
          |l0.importance - l1.importance| < 1/10)) := by
  rw [pipeline_disambig_eq intent l0 l1 rest route_oracle text user_lat user_lng gen hIt hDq]
  rcases hDist with ⟨h0, h1s⟩ | ⟨h0, h1s⟩
  · obtain ⟨d0, hd0⟩ := Option.isSome_iff_exists.mp h0
    obtain ⟨d1, hd1⟩ := Option.isSome_iff_exists.mp h1s
    simp [needs_disambiguation, hd0, hd1, DISAMBIGUATION_DISTANCE_THRESHOLD_METERS]
  · simp [needs_disambiguation, h0, h1s]

/-- C2 witness: a navigation intent with two results 200 m apart (100 m and
300 m, both distances known) triggers disambiguation. -/
theorem claim_c2_witness :
    ((⟨some "SERVICE", some "navigation", some "南京南站", some "taxi", [],
        some "zh"⟩ : IntentDict).intent_type.getD "general_chat" ≠ "general_chat") ∧
    truthyOptStr (⟨some "SERVICE", some "navigation", some "南京南站", some "taxi", [],
        some "zh"⟩ : IntentDict).destination_query = true ∧
    (((⟨"loc_1", "A", "addr1", 32, 118, some 100, 1, "station", "railway"⟩ : Location).distance_meters.isSome ∧
      (⟨"loc_2", "B", "addr2", 32, 119, some 300, 0, "station", "railway"⟩ : Location).distance_meters.isSome) ∨
      ((⟨"loc_1", "A", "addr1", 32, 118, some 100, 1, "station", "railway"⟩ : Location).distance_meters = none ∧
       (⟨"loc_2", "B", "addr2", 32, 119, some 300, 0, "station", "railway"⟩ : Location).distance_meters = none)) ∧
    ((hasDisambig (process_intent_with_lbs
        ⟨some "SERVICE", some "navigation", some "南京南站", some "taxi", [], some "zh"⟩
        [⟨"loc_1", "A", "addr1", 32, 118, some 100, 1, "station", "railway"⟩,
         ⟨"loc_2", "B", "addr2", 32, 119, some 300, 0, "station", "railway"⟩]
        none "我要去南京南站" (some 32) (some 118) (fun _ => "u")) = true) ↔
      ((∃ d0 d1,
          (⟨"loc_1", "A", "addr1", 32, 118, some 100, 1, "station", "railway"⟩ : Location).distance_meters = some d0 ∧
          (⟨"loc_2", "B", "addr2", 32, 119, some 300, 0, "station", "railway"⟩ : Location).distance_meters = some d1 ∧
          d1 - d0 < 500) ∨
        ((⟨"loc_1", "A", "addr1", 32, 118, some 100, 1, "station", "railway"⟩ : Location).distance_meters = none ∧
         (⟨"loc_2", "B", "addr2", 32, 119, some 300, 0, "station", "railway"⟩ : Location).distance_meters = none ∧
         |(⟨"loc_1", "A", "addr1", 32, 118, some 100, 1, "station", "railway"⟩ : Location).importance -
           (⟨"loc_2", "B", "addr2", 32, 119, some 300, 0, "station", "railway"⟩ : Location).importance| < 1/10))) :=
  ⟨by decide, by decide, Or.inl ⟨rfl, rfl⟩,
    claim_c2_disambiguation_iff
      ⟨some "SERVICE", some "navigation", some "南京南站", some "taxi", [], some "zh"⟩
      ⟨"loc_1", "A", "addr1", 32, 118, some 100, 1, "station", "railway"⟩
      ⟨"loc_2", "B", "addr2", 32, 119, some 300, 0, "station", "railway"⟩ []
      none "我要去南京南站" (some 32) (some 118) (fun _ => "u")
      (by decide) (by decide) (Or.inl ⟨rfl, rfl⟩)⟩

end JustNow
